import Mathlib

/-!
Verification development for the NIST 2.0 recommendation engine
(src/api/index.py).  The Python module is shallowly embedded: pure helper
functions become Lean functions, the HTTP / JSON / OpenAI side effects are
represented by explicit outcome parameters (oracles), and the streaming
generators become functions producing an explicit list of events.
-/

/-- Category scores: the mapping from NIST category name to percentage
maturity, as carried in the survey metadata (Python dict, insertion order
preserved; modelled as an association list). -/
abbrev CategoryScores := List (String × Int)

/-- Embeds `determine_priority` (src/api/index.py lines 598-607):
score ≤ 1 gives Critical, 2 High, 3 Medium, anything else Low. -/
def determine_priority (score : Int) : String :=
  if score ≤ 1 then "Critical"
  else if score = 2 then "High"
  else if score = 3 then "Medium"
  else "Low"

/-- Embeds `get_score_response_text` (lines 532-544): a dict lookup with a
default for unknown scores. -/
def get_score_response_text (score : Int) : String :=
  if score = 0 then "Incomplete. No formal practices exist."
  else if score = 1 then "Ad hoc. Unstructured, reactive practices exist."
  else if score = 2 then
    "Developing. Some policies and controls exist, but they are incomplete, inconsistent, or not widely followed."
  else if score = 3 then
    "Managed. Policies and processes are documented, followed, and managed across teams, but effectiveness is not consistently measured."
  else if score = 4 then
    "Quantified. Policies and controls are regularly measured and continuously improved. The organization has a structured cybersecurity approach."
  else if score = 5 then
    "Optimized. Cybersecurity is fully integrated into business operations, continuously improving, and leveraging automation and advanced security practices."
  else "Unknown score level"

/-- Embeds `calculate_overall_maturity` (lines 516-530).  Python computes
`sum(values)/len(values)` with float division; the percentages are small
integers, so the exact rational average used here agrees with the float
comparison against the integer thresholds. -/
def calculate_overall_maturity (category_scores : CategoryScores) : String :=
  if category_scores.isEmpty then "Unknown"
  else
    let avg : ℚ := (((category_scores.map Prod.snd).sum : Int) : ℚ) / (category_scores.length : ℚ)
    if 76 ≤ avg then "Advanced"
    else if 51 ≤ avg then "Intermediate"
    else if 26 ≤ avg then "Basic"
    else "Initial"

/-- One assessed control instance, as read off the task-list JSON
(`task.get("id")`, `task.get("name", "")`, `task.get("score")`,
`task.get("kind", "")`, `task.get("subSystem", "")`,
`task.get("additionalContext", "")`, `task.get("informativeReferences", "")`).
`score = none` models a missing or JSON-null score. -/
structure SurveyTask where
  id : Int
  name : String
  score : Option Int
  kind : String
  subSystem : String
  additionalContext : String
  informativeReferences : String
  deriving DecidableEq

/-- The JSON object returned by the generative model once parsed
(`json.loads` of the model content), with the fields of the schema in
`SYSTEM_INSTRUCTION`.  `Option.some` of this structure models a successful
parse into a non-empty object (the call sites treat an empty dict as falsy,
i.e. as a failure). -/
structure GptRec where
  subcategory : String
  title : String
  description : String
  priority : String
  recommendation : String
  rationale : String
  supporting_resources : List String
  remediation_steps : List String
  tools : List String
  references : List String
  effort_level : String
  impact_score : Int
  reference_note : String
  deriving DecidableEq

/-- The metadata that the pipeline `update`s onto the parsed model output:
either the per-control metadata of `generate_subcategory_recommendation`
(lines 579-592) or the positive-assessment metadata of
`generate_positive_assessment_recommendation` (lines 666-674).  Because
`dict.update` overwrites the existing `priority` key in the per-control
case, the effective priority of a control recommendation is the one stored
here, not the one in the model output. -/
inductive RecMeta where
  | control (nist_subcategory : Int) (subcategory_title : String) (category : String)
      (current_score : Int) (score_response : String) (priority : String)
      (recommendation_id : String) (timestamp : String)
  | positive (assessment_type : String) (recommendation_id : String) (timestamp : String)
  deriving DecidableEq

/-- A recommendation as assembled by the pipeline: the parsed model output
plus the attached metadata. -/
structure Recommendation where
  base : GptRec
  meta : RecMeta
  deriving DecidableEq

/-- The `priority` entry of the final recommendation dict.  For a
per-control recommendation the `update` call overwrote the model value, so
the metadata value wins; the positive-assessment update does not touch
`priority`, so the model value survives. -/
def Recommendation.priorityValue (r : Recommendation) : String :=
  match r.meta with
  | .control _ _ _ _ _ p _ _ => p
  | .positive _ _ _ => r.base.priority

/-- The `current_score` entry of the final recommendation dict (only
per-control recommendations have one). -/
def Recommendation.currentScore (r : Recommendation) : Option Int :=
  match r.meta with
  | .control _ _ _ s _ _ _ _ => some s
  | .positive _ _ _ => none

/-- The `nist_subcategory` entry (the source task id; only per-control
recommendations have one). -/
def Recommendation.nistId (r : Recommendation) : Option Int :=
  match r.meta with
  | .control i _ _ _ _ _ _ _ => some i
  | .positive _ _ _ => none

/-- Whether the recommendation came from the per-control path. -/
def Recommendation.isControl (r : Recommendation) : Bool :=
  match r.meta with
  | .control _ _ _ _ _ _ _ _ => true
  | .positive _ _ _ => false

/-- The request-level nondeterminism the Python code draws from the
environment: `datetime.now().strftime("%Y-%m-%d")`,
`datetime.now().isoformat()` and `str(uuid.uuid4())`. -/
structure Env where
  date : String
  now : String
  uuid : String
  deriving DecidableEq

/-- The `user_context` object assembled by the pipeline (lines 493-499 and
805-810). -/
structure UserContext where
  survey_id : Int
  assessment_date : String
  current_maturity_scores : CategoryScores
  overall_maturity_level : String
  deriving DecidableEq

/-- Whether a Python string is blank, i.e. `not s.strip()` is truthy:
empty or all whitespace. -/
def pyBlank (s : String) : Bool :=
  s.data.all Char.isWhitespace

def pyWordsAux : List Char → List Char → List String
  | [], acc => if acc.isEmpty then [] else [String.mk acc.reverse]
  | c :: cs, acc =>
    if c.isWhitespace then
      if acc.isEmpty then pyWordsAux cs []
      else String.mk acc.reverse :: pyWordsAux cs []
    else pyWordsAux cs (c :: acc)

/-- Python `str.split()` with no argument: split on runs of whitespace and
drop empty pieces (used for `task.get("kind", "").split()`). -/
def pyWords (s : String) : List String :=
  pyWordsAux s.data []


-- ## JSON text utilities shared by the prompt builder and the event
-- serialization (modelling the stdlib `json.dumps` on the shapes the code
-- actually serializes; all strings involved are ASCII, so the
-- `ensure_ascii` escaping of `json.dumps` never fires on them).

def jsonEscapeChar (c : Char) : String :=
  if c = '"' then "\\\""
  else if c = '\\' then "\\\\"
  else if c = '\n' then "\\n"
  else if c = '\t' then "\\t"
  else if c = '\r' then "\\r"
  else String.singleton c

def jsonEscape (s : String) : String :=
  String.join (s.data.map jsonEscapeChar)

def jsonStr (s : String) : String :=
  "\"" ++ jsonEscape s ++ "\""

/-- `json.dumps` of a flat string-to-int mapping with the default
separators, e.g. `\x7b"govern": 40\x7d`. -/
def dumpsScoresInline (cs : CategoryScores) : String :=
  "\x7b" ++ String.intercalate ", " (cs.map fun kv => jsonStr kv.1 ++ ": " ++ toString kv.2) ++ "\x7d"

/-- `json.dumps(category_scores, indent=2)` as used in the two prompt
builders. -/
def dumpsScoresIndent2 (cs : CategoryScores) : String :=
  match cs with
  | [] => "\x7b\x7d"
  | _ =>
    "\x7b\n" ++
    String.intercalate ",\n" (cs.map fun kv => "  " ++ jsonStr kv.1 ++ ": " ++ toString kv.2) ++
    "\n\x7d"

-- ## A small executable model of `json.loads` on the flat
-- string-to-integer objects that the metadata `scores` field carries.
-- (`json.loads` accepts more shapes; the `scores` contract in the spec is a
-- mapping from category name to integer percentage, and claim C6 only
-- exercises that shape plus a non-JSON string.)

def openBraceC : Char := Char.ofNat 123

def closeBraceC : Char := Char.ofNat 125

def skipSpaces : List Char → List Char
  | [] => []
  | c :: cs => if c = ' ' ∨ c = '\n' ∨ c = '\t' ∨ c = '\r' then skipSpaces cs else c :: cs

/-- Scan a JSON string body after the opening quote; returns the decoded
string and the remainder after the closing quote. -/
def scanJsonString : List Char → Option (String × List Char)
  | [] => none
  | c :: cs =>
    if c = '"' then some ("", cs)
    else if c = '\\' then
      match cs with
      | [] => none
      | e :: cs2 =>
        let b : Option Char :=
          if e = '"' then some '"'
          else if e = '\\' then some '\\'
          else if e = '/' then some '/'
          else if e = 'n' then some '\n'
          else if e = 't' then some '\t'
          else if e = 'r' then some '\r'
          else none
        match b with
        | none => none
        | some ch =>
          match scanJsonString cs2 with
          | none => none
          | some (rest, rem) => some (String.singleton ch ++ rest, rem)
    else
      match scanJsonString cs with
      | none => none
      | some (rest, rem) => some (String.singleton c ++ rest, rem)

def scanDigits : List Char → List Char × List Char
  | [] => ([], [])
  | c :: cs =>
    if c.isDigit then
      let (ds, r) := scanDigits cs
      (c :: ds, r)
    else ([], c :: cs)

def digitsVal (ds : List Char) : Nat :=
  ds.foldl (fun acc c => acc * 10 + (c.toNat - 48)) 0

def scanJsonInt (l : List Char) : Option (Int × List Char) :=
  match l with
  | '-' :: rest =>
    match scanDigits rest with
    | ([], _) => none
    | (ds, rem) => some (-(digitsVal ds : Int), rem)
  | _ =>
    match scanDigits l with
    | ([], _) => none
    | (ds, rem) => some ((digitsVal ds : Int), rem)

/-- Parse the entries of a flat object, positioned at the start of a key;
returns the entries and the remainder after the closing brace. -/
def parseScoreEntries (fuel : Nat) (l : List Char) : Option (List (String × Int) × List Char) :=
  match fuel with
  | 0 => none
  | fuel + 1 =>
    match l with
    | [] => none
    | c :: rest =>
      if c = '"' then
        match scanJsonString rest with
        | none => none
        | some (key, r1) =>
          match skipSpaces r1 with
          | [] => none
          | c2 :: r2 =>
            if c2 = ':' then
              match scanJsonInt (skipSpaces r2) with
              | none => none
              | some (v, r3) =>
                match skipSpaces r3 with
                | [] => none
                | c3 :: r4 =>
                  if c3 = ',' then
                    match parseScoreEntries fuel (skipSpaces r4) with
                    | none => none
                    | some (entries, rem) => some ((key, v) :: entries, rem)
                  else if c3 = closeBraceC then some ([(key, v)], r4)
                  else none
            else none
      else none

/-- Executable model of `json.loads` restricted to flat objects with string
keys and integer values (the shape of the `scores` metadata field); every
other input is a parse failure. -/
def pyJsonParseFlatObj (s : String) : Option (List (String × Int)) :=
  match skipSpaces s.data with
  | [] => none
  | c :: rest =>
    if c = openBraceC then
      match skipSpaces rest with
      | [] => none
      | c2 :: rest2 =>
        if c2 = closeBraceC then
          if (skipSpaces rest2).isEmpty then some [] else none
        else
          match parseScoreEntries (s.length + 1) (c2 :: rest2) with
          | none => none
          | some (entries, rem) =>
            if (skipSpaces rem).isEmpty then some entries else none
    else none


-- ## Prompt builders (lines 609-661)

/-- Embeds `prepare_subcategory_prompt` (lines 609-638): the exact f-string,
with `json.dumps(category_scores, indent=2)` rendered by
`dumpsScoresIndent2`. -/
def prepare_subcategory_prompt (task_name : String) (score : Int) (category : String)
    (subcategory : String) (context : String) (references : String)
    (category_scores : CategoryScores) (score_response_text : String) : String :=
  "\n    Generate a comprehensive NIST 2.0 recommendation for:\n    \n    Subcategory: " ++
  task_name ++
  "\n    Current Score: " ++ toString score ++
  "\n    Score Description: " ++ score_response_text ++
  "\n    Category: " ++ category ++
  "\n    Subcategory: " ++ subcategory ++
  "\n    \n    Current Maturity Scores:\n    " ++ dumpsScoresIndent2 category_scores ++
  "\n    \n    Additional Context from User:\n    " ++ context ++
  "\n    \n    References:\n    " ++ references ++
  "\n    \n    Please provide a recommendation following the specified JSON structure, ensuring:" ++
  "\n    1. All recommendations are actionable and specific" ++
  "\n    2. MXDR services are mapped according to the provided pricing tiers" ++
  "\n    3. Implementation timelines are realistic" ++
  "\n    4. Business rationale is compelling and specific" ++
  "\n    5. Technical recommendations align with NIST examples" ++
  "\n    6. ROI calculations use industry-standard metrics" ++
  "\n    7. Language is professional but accessible to executives" ++
  "\n    8. Recommendations specifically address the current maturity level described in the Score Description.\n    "

/-- The positive-assessment prompt built inside
`generate_positive_assessment_recommendation` (lines 644-661). -/
def prepare_positive_prompt (category_scores : CategoryScores) (survey_id : Int) : String :=
  "\n        Generate a positive cybersecurity assessment for an organization with strong maturity scores.\n        \n        Current Maturity Scores:\n        " ++
  dumpsScoresIndent2 category_scores ++
  "\n        \n        Survey ID: " ++ toString survey_id ++
  "\n        Assessment Context: All cybersecurity controls scored 3 or higher, indicating well-established practices.\n        \n        Create a congratulatory recommendation that:" ++
  "\n        1. Acknowledges their strong cybersecurity posture" ++
  "\n        2. Provides guidance for maintaining excellence" ++
  "\n        3. Suggests optimization and continuous improvement" ++
  "\n        \n        Use subcategory \"OVERALL-ASSESSMENT\" and title \"Cybersecurity Excellence Achieved\"." ++
  "\n        Set priority to \"Low\" since no urgent actions are needed." ++
  "\n        Focus on maintenance, monitoring, and strategic improvements.\n        "

-- ## Generative model call with retry (lines 701-729)

/-- What one `client.chat.completions.create` call does, as observed by
`generate_gpt_recommendation`: either some exception is raised during the
call (transport or provider failure; also an unreadable response object),
or the model returns a text content. -/
inductive CallOutcome where
  | exn (message : String)
  | content (s : String)
  deriving DecidableEq

/-- The attempt loop of `generate_gpt_recommendation` (lines 703-729),
driven by an oracle `call` giving the outcome of each attempt and by
`parse` modelling `json.loads` of the returned content.  The result pairs
the returned value with the total time spent in `time.sleep(delay)` calls,
so that the retry-delay behaviour is part of the model.  Following the
code: empty (after `strip`) content returns `None` immediately; content
that fails to parse hits `continue`, which moves to the next attempt with
no sleep; an exception sleeps `delay` iff `attempt < retries - 1`, then
moves to the next attempt.  Exhausting the attempts returns `None`. -/
def gptAttempts (call : Nat → CallOutcome) (parse : String → Option GptRec)
    (retries delay : Nat) : Nat → Nat → Option GptRec × Nat
  | _, 0 => (none, 0)
  | attempt, fuel + 1 =>
    match call attempt with
    | .content s =>
      if pyBlank s then (none, 0)
      else
        match parse s with
        | some g => (some g, 0)
        | none => gptAttempts call parse retries delay (attempt + 1) fuel
    | .exn _ =>
      let rest := gptAttempts call parse retries delay (attempt + 1) fuel
      if attempt < retries - 1 then (rest.1, delay + rest.2) else rest

/-- Embeds `generate_gpt_recommendation(prompt, retries=3, delay=10)`: run
the attempt loop from attempt 0 with `retries` iterations available.  The
prompt itself is folded into the `call` oracle. -/
def generate_gpt_recommendation (call : Nat → CallOutcome) (parse : String → Option GptRec)
    (retries delay : Nat) : Option GptRec × Nat :=
  gptAttempts call parse retries delay 0 retries

/-- The per-prompt generative call as the pipeline uses it: the callers
invoke `generate_gpt_recommendation(prompt)` with the default
`retries=3, delay=10` and only look at the returned value.  `calls` gives
the model outcome per prompt and per attempt. -/
def gptFor (calls : String → Nat → CallOutcome) (parse : String → Option GptRec)
    (prompt : String) : Option GptRec :=
  (generate_gpt_recommendation (calls prompt) parse 3 10).1

-- ## Per-control and positive-assessment generation (lines 546-596, 640-699)

/-- Embeds `generate_subcategory_recommendation` (lines 546-596).  The
whole body is wrapped in a try/except that returns `None` on any
exception, which happens exactly when `int(task.get("score", 0))` sees a
null score or when `task.get("kind", "").split()[0]` indexes an empty
split (callers only pass tasks with a present score, so the first case is
theoretical).  On a successful model call the parsed output is `update`d
with the per-control metadata; the metadata `priority` overwrites the
model value in the resulting dict. -/
def generate_subcategory_recommendation (gpt : String → Option GptRec) (env : Env)
    (task : SurveyTask) (category_scores : CategoryScores) (_survey_id : Int) :
    Option Recommendation :=
  match task.score with
  | none => none
  | some score =>
    match pyWords task.kind with
    | [] => none
    | category :: _ =>
      let score_response_text := get_score_response_text score
      let priority := determine_priority score
      let prompt := prepare_subcategory_prompt task.name score category task.subSystem
        task.additionalContext task.informativeReferences category_scores score_response_text
      match gpt prompt with
      | none => none
      | some g =>
        some { base := g,
               meta := .control task.id task.name category score score_response_text
                 priority env.uuid env.now }

/-- Embeds `generate_positive_assessment_recommendation` (lines 640-699).
The try block builds the prompt, calls the model and, on a truthy result,
attaches the positive-assessment metadata; if the model call returns
`None` the function falls through the `if recommendation:` and returns
`None`.  The canned fallback dict in the `except` branch (lines 678-699)
is reachable only if the try block raises, and `generate_gpt_recommendation`
catches all its own exceptions, so that branch is dead in this model (this
is what claim C2 is about). -/
def generate_positive_assessment_recommendation (gpt : String → Option GptRec) (env : Env)
    (category_scores : CategoryScores) (survey_id : Int) : Option Recommendation :=
  let prompt := prepare_positive_prompt category_scores survey_id
  match gpt prompt with
  | none => none
  | some g =>
    some { base := g, meta := .positive "positive_evaluation" env.uuid env.now }

-- ## The fetch layer (lines 426-464 and 763-801), modelled as outcome data

/-- The observable outcome of parsing the task-list response body:
`parseError` models a `json.JSONDecodeError` from `task_resp.json()`;
`parsed` carries the list that `task_data.get("tasks", [])` would then
produce (empty when the key is missing). -/
inductive TaskParse where
  | parseError (message : String)
  | parsed (tasks : List SurveyTask)
  deriving DecidableEq

/-- The `scores` field of the parsed metadata: missing, already a mapping,
or a JSON-encoded string needing a second parse. -/
inductive ScoresField where
  | absent
  | mapping (m : CategoryScores)
  | strVal (s : String)
  deriving DecidableEq

/-- The observable outcome of parsing the metadata response body. -/
inductive MetaParse where
  | parseError (message : String)
  | parsed (scores : ScoresField)
  deriving DecidableEq

/-- The outcome of the two `session.get` calls issued for one request:
either one of them raised `requests.exceptions.RequestException`
(connection refused, DNS failure, timeout), or both returned a response
with a status code, an emptiness flag for the stripped body, and a parse
outcome for the body. -/
inductive FetchOutcome where
  | requestError (message : String)
  | ok (taskStatus : Nat) (taskBlank : Bool) (taskParse : TaskParse)
      (metaStatus : Nat) (metaBlank : Bool) (metaParse : MetaParse)
  deriving DecidableEq

-- ## Stream events (the `StreamEvent` union of the spec)

/-- One streamed event, with the payloads the code puts into the JSON it
yields.  The first status event of a request additionally carries the
survey id, hence the `Option Int` on `status`.  `progress` carries
`current`, `total` and the percentage in tenths (the code computes
`round((current/total)*100, 1)`). -/
inductive Event where
  | status (message : String) (survey_id : Option Int)
  | warning (message : String)
  | user_context (data : UserContext)
  | progress (current total : Nat) (percentageTenths : Int)
  | recommendation (data : Recommendation)
  | summary (total_recommendations : Nat) (survey_id : Int) (timestamp : String)
  | error (message : String)
  | endEv
  deriving DecidableEq

/-- The variant tag of an event, for stating ordering claims. -/
inductive EventKind where
  | status
  | warning
  | user_context
  | progress
  | recommendation
  | summary
  | error
  | ending
  deriving DecidableEq

def Event.kind : Event → EventKind
  | .status _ _ => .status
  | .warning _ => .warning
  | .user_context _ => .user_context
  | .progress _ _ _ => .progress
  | .recommendation _ => .recommendation
  | .summary _ _ _ => .summary
  | .error _ => .error
  | .endEv => .ending

def Event.isError : Event → Bool
  | .error _ => true
  | _ => false

/-- Meta-response handling shared verbatim by the blocking endpoint (lines
436-448) and both streaming generators (lines 772-785, 918-929): produces
the warnings surfaced (the blocking variant only prints them) and the
resulting category-scores mapping (empty whenever the code substitutes an
empty structure or the scores key is missing). -/
def handle_meta (status : Nat) (blank : Bool) (p : MetaParse) : List Event × CategoryScores :=
  if status = 200 ∧ blank = false then
    match p with
    | .parseError e => ([Event.warning ("Meta JSON error: " ++ e)], [])
    | .parsed .absent => ([], [])
    | .parsed (.mapping m) => ([], m)
    | .parsed (.strVal s) =>
      match pyJsonParseFlatObj s with
      | some m => ([], m)
      | none => ([Event.warning "Could not parse scores data"], [])
  else ([Event.warning "Empty or non-JSON meta response"], [])

/-- Task-response handling shared by the blocking endpoint (lines 450-457)
and both streaming generators (lines 787-794, 933-940). -/
def handle_tasks (status : Nat) (blank : Bool) (p : TaskParse) : List Event × List SurveyTask :=
  if status = 200 ∧ blank = false then
    match p with
    | .parseError e => ([Event.warning ("Task JSON error: " ++ e)], [])
    | .parsed ts => ([], ts)
  else ([Event.warning "Empty or non-JSON task response"], [])

/-- Whether a task qualifies for the per-control path: the predicate
`task.get("score") is not None and int(task.get("score", 0)) <= 2` used by
the counting comprehension and (as nested ifs) by every processing loop. -/
def task_qualifies (t : SurveyTask) : Bool :=
  match t.score with
  | none => false
  | some s => decide (s ≤ 2)

-- ## Blocking pipeline `process_survey` (lines 418-514)

/-- The per-task step of the blocking loop (lines 471-482): skip tasks with
a missing score or a score above 2, otherwise attempt generation. -/
def per_control_step (gpt : String → Option GptRec) (env : Env)
    (category_scores : CategoryScores) (survey_id : Int) (t : SurveyTask) :
    Option Recommendation :=
  match t.score with
  | none => none
  | some s =>
    if s ≤ 2 then generate_subcategory_recommendation gpt env t category_scores survey_id
    else none

/-- The blocking per-control loop itself, written as the code writes it:
iterate tasks in order, appending each non-null generated recommendation. -/
def per_control_loop (gpt : String → Option GptRec) (env : Env)
    (category_scores : CategoryScores) (survey_id : Int) :
    List SurveyTask → List Recommendation
  | [] => []
  | t :: ts =>
    match t.score with
    | none => per_control_loop gpt env category_scores survey_id ts
    | some s =>
      if s ≤ 2 then
        match generate_subcategory_recommendation gpt env t category_scores survey_id with
        | some r => r :: per_control_loop gpt env category_scores survey_id ts
        | none => per_control_loop gpt env category_scores survey_id ts
      else per_control_loop gpt env category_scores survey_id ts

/-- What `process_survey` returns: the final output dict on success, or the
error dict `\x7b"error": ..., "survey_id": ...\x7d` when a
`requests.exceptions.RequestException` was raised. -/
inductive SurveyResult where
  | ok (user_context : UserContext) (recommendations : List Recommendation)
  | err (message : String) (survey_id : Int)
  deriving DecidableEq

/-- Embeds `process_survey` (lines 418-514): fetch handling, the
per-control loop, the positive-assessment fallback when no recommendation
was produced, and the final output structure. -/
def process_survey (survey_id : Int) (fetch : FetchOutcome)
    (calls : String → Nat → CallOutcome) (parse : String → Option GptRec) (env : Env) :
    SurveyResult :=
  match fetch with
  | .requestError msg =>
    .err ("Request failed for survey " ++ toString survey_id ++ ": " ++ msg) survey_id
  | .ok tS tB tP mS mB mP =>
    let gpt := gptFor calls parse
    let category_scores := (handle_meta mS mB mP).2
    let tasks := (handle_tasks tS tB tP).2
    let recommendations := per_control_loop gpt env category_scores survey_id tasks
    let recommendations :=
      if recommendations.isEmpty then
        match generate_positive_assessment_recommendation gpt env category_scores survey_id with
        | some p => [p]
        | none => recommendations
      else recommendations
    .ok { survey_id := survey_id, assessment_date := env.date,
          current_maturity_scores := category_scores,
          overall_maturity_level := calculate_overall_maturity category_scores }
      recommendations

-- ## Streaming generators (lines 746-890 and 892-1041)

/-- Python `round` (banker's rounding, half to even) on an exact rational. -/
def pyRoundHalfEven (q : ℚ) : Int :=
  let f := ⌊q⌋
  let frac := q - f
  if frac < 1 / 2 then f
  else if 1 / 2 < frac then f + 1
  else if f % 2 = 0 then f else f + 1

/-- The `percentage` field of a progress event, in tenths:
`round((current/total)*100, 1)` (the float artefacts of CPython's round
are abstracted to exact rational rounding). -/
def progressPercentageTenths (current total : Nat) : Int :=
  pyRoundHalfEven ((current : ℚ) / (total : ℚ) * 100 * 10)

/-- The per-task loop of the streaming generators (lines 824-853, 970-999):
iterate tasks in order; for each qualifying task emit a progress event
(counter incremented first), then attempt generation and on success append
the recommendation and emit a recommendation event.  Returns the emitted
events and the accumulated recommendations list. -/
def stream_task_loop (gpt : String → Option GptRec) (env : Env)
    (category_scores : CategoryScores) (survey_id : Int) (total : Nat) :
    List SurveyTask → Nat → List Recommendation → List Event × List Recommendation
  | [], _, recs => ([], recs)
  | t :: ts, processed, recs =>
    match t.score with
    | none => stream_task_loop gpt env category_scores survey_id total ts processed recs
    | some s =>
      if s ≤ 2 then
        let p := processed + 1
        let prog := Event.progress p total (progressPercentageTenths p total)
        match generate_subcategory_recommendation gpt env t category_scores survey_id with
        | some r =>
          let rest := stream_task_loop gpt env category_scores survey_id total ts p (recs ++ [r])
          (prog :: Event.recommendation r :: rest.1, rest.2)
        | none =>
          let rest := stream_task_loop gpt env category_scores survey_id total ts p recs
          (prog :: rest.1, rest.2)
      else stream_task_loop gpt env category_scores survey_id total ts processed recs

/-- Embeds the generator body of `process_survey_stream_endpoint.generate`
(lines 752-883): the full event sequence for one request.  Exceptions other
than `requests.exceptions.RequestException` cannot arise in this model (the
generation helpers catch their own), so the generic `Processing error`
branch is not represented. -/
def process_survey_stream_generate (survey_id : Int) (fetch : FetchOutcome)
    (calls : String → Nat → CallOutcome) (parse : String → Option GptRec) (env : Env) :
    List Event :=
  Event.status "Starting survey processing..." (some survey_id) ::
  Event.status "Fetching survey data..." none ::
  (match fetch with
   | .requestError msg => [Event.error ("Request failed: " ++ msg)]
   | .ok tS tB tP mS mB mP =>
     let gpt := gptFor calls parse
     let mh := handle_meta mS mB mP
     let th := handle_tasks tS tB tP
     let category_scores := mh.2
     let tasks := th.2
     let uc : UserContext :=
       { survey_id := survey_id, assessment_date := env.date,
         current_maturity_scores := category_scores,
         overall_maturity_level := calculate_overall_maturity category_scores }
     let total := (tasks.filter task_qualifies).length
     let looped := stream_task_loop gpt env category_scores survey_id total tasks 0 []
     let recommendations := looped.2
     let posResult :=
       if recommendations.isEmpty then
         some (generate_positive_assessment_recommendation gpt env category_scores survey_id)
       else none
     let posEvents :=
       match posResult with
       | none => []
       | some pr =>
         Event.status "Generating positive assessment via LLM..." none ::
         (match pr with
          | some p => [Event.recommendation p]
          | none => [])
     let finalRecs :=
       match posResult with
       | none => recommendations
       | some (some p) => [p]
       | some none => recommendations
     Event.status ("API Status - Task: " ++ toString tS ++ ", Meta: " ++ toString mS) none ::
     (mh.1 ++ th.1 ++
      Event.user_context uc ::
      Event.status ("Processing " ++ toString total ++ " tasks...") none ::
      (looped.1 ++
       Event.status "Processing complete!" none ::
       (posEvents ++ [Event.summary finalRecs.length survey_id env.now])))) ++
  [Event.endEv]

/-- Embeds the generator body of `process_survey_sse_endpoint.generate`
(lines 898-1029), which duplicates the stream generator line for line. -/
def process_survey_sse_generate (survey_id : Int) (fetch : FetchOutcome)
    (calls : String → Nat → CallOutcome) (parse : String → Option GptRec) (env : Env) :
    List Event :=
  Event.status "Starting survey processing..." (some survey_id) ::
  Event.status "Fetching survey data..." none ::
  (match fetch with
   | .requestError msg => [Event.error ("Request failed: " ++ msg)]
   | .ok tS tB tP mS mB mP =>
     let gpt := gptFor calls parse
     let mh := handle_meta mS mB mP
     let th := handle_tasks tS tB tP
     let category_scores := mh.2
     let tasks := th.2
     let uc : UserContext :=
       { survey_id := survey_id, assessment_date := env.date,
         current_maturity_scores := category_scores,
         overall_maturity_level := calculate_overall_maturity category_scores }
     let total := (tasks.filter task_qualifies).length
     let looped := stream_task_loop gpt env category_scores survey_id total tasks 0 []
     let recommendations := looped.2
     let posResult :=
       if recommendations.isEmpty then
         some (generate_positive_assessment_recommendation gpt env category_scores survey_id)
       else none
     let posEvents :=
       match posResult with
       | none => []
       | some pr =>
         Event.status "Generating positive assessment via LLM..." none ::
         (match pr with
          | some p => [Event.recommendation p]
          | none => [])
     let finalRecs :=
       match posResult with
       | none => recommendations
       | some (some p) => [p]
       | some none => recommendations
     Event.status ("API Status - Task: " ++ toString tS ++ ", Meta: " ++ toString mS) none ::
     (mh.1 ++ th.1 ++
      Event.user_context uc ::
      Event.status ("Processing " ++ toString total ++ " tasks...") none ::
      (looped.1 ++
       Event.status "Processing complete!" none ::
       (posEvents ++ [Event.summary finalRecs.length survey_id env.now])))) ++
  [Event.endEv]

-- ## Event serialization and the two HTTP endpoints

/-- Python float repr of a one-decimal value given in tenths (the shape
`round(x, 1)` produces), e.g. 500 tenths prints as "50.0". -/
def floatRepr1 (tenths : Int) : String :=
  toString (tenths / 10) ++ "." ++ toString (tenths % 10)

def jsonStrList (xs : List String) : String :=
  "[" ++ String.intercalate ", " (xs.map jsonStr) ++ "]"

/-- The `json.dumps` rendering of the recommendation dict: the
model-output keys in the schema order of `SYSTEM_INSTRUCTION` (the dict
order of the parsed model output), with the `priority` value as it stands
after the metadata `update`, followed by the appended metadata keys in
update order. -/
def recommendationJson (r : Recommendation) : String :=
  let basePart := fun (priorityVal : String) =>
    "\x7b\"subcategory\": " ++ jsonStr r.base.subcategory ++
    ", \"title\": " ++ jsonStr r.base.title ++
    ", \"description\": " ++ jsonStr r.base.description ++
    ", \"priority\": " ++ jsonStr priorityVal ++
    ", \"recommendation\": " ++ jsonStr r.base.recommendation ++
    ", \"rationale\": " ++ jsonStr r.base.rationale ++
    ", \"supporting_resources\": " ++ jsonStrList r.base.supporting_resources ++
    ", \"remediation_steps\": " ++ jsonStrList r.base.remediation_steps ++
    ", \"tools\": " ++ jsonStrList r.base.tools ++
    ", \"references\": " ++ jsonStrList r.base.references ++
    ", \"effort_level\": " ++ jsonStr r.base.effort_level ++
    ", \"impact_score\": " ++ toString r.base.impact_score ++
    ", \"reference_note\": " ++ jsonStr r.base.reference_note
  match r.meta with
  | .control nid title cat s srt pr rid ts =>
    basePart pr ++
    ", \"nist_subcategory\": " ++ toString nid ++
    ", \"subcategory_title\": " ++ jsonStr title ++
    ", \"category\": " ++ jsonStr cat ++
    ", \"current_score\": " ++ toString s ++
    ", \"score_response\": " ++ jsonStr srt ++
    ", \"recommendation_id\": " ++ jsonStr rid ++
    ", \"timestamp\": " ++ jsonStr ts ++ "\x7d"
  | .positive aty rid ts =>
    basePart r.base.priority ++
    ", \"assessment_type\": " ++ jsonStr aty ++
    ", \"recommendation_id\": " ++ jsonStr rid ++
    ", \"timestamp\": " ++ jsonStr ts ++ "\x7d"

/-- The `json.dumps` rendering of one streamed event dict, with the key
order of the dict literals in the source. -/
def eventJson : Event → String
  | .status m (some sid) =>
    "\x7b\"type\": \"status\", \"message\": " ++ jsonStr m ++
    ", \"survey_id\": " ++ toString sid ++ "\x7d"
  | .status m none =>
    "\x7b\"type\": \"status\", \"message\": " ++ jsonStr m ++ "\x7d"
  | .warning m =>
    "\x7b\"type\": \"warning\", \"message\": " ++ jsonStr m ++ "\x7d"
  | .user_context uc =>
    "\x7b\"type\": \"user_context\", \"data\": \x7b\"survey_id\": " ++ toString uc.survey_id ++
    ", \"assessment_date\": " ++ jsonStr uc.assessment_date ++
    ", \"current_maturity_scores\": " ++ dumpsScoresInline uc.current_maturity_scores ++
    ", \"overall_maturity_level\": " ++ jsonStr uc.overall_maturity_level ++ "\x7d\x7d"
  | .progress c t pt =>
    "\x7b\"type\": \"progress\", \"current\": " ++ toString c ++
    ", \"total\": " ++ toString t ++
    ", \"percentage\": " ++ floatRepr1 pt ++ "\x7d"
  | .recommendation r =>
    "\x7b\"type\": \"recommendation\", \"data\": " ++ recommendationJson r ++ "\x7d"
  | .summary n sid ts =>
    "\x7b\"type\": \"summary\", \"total_recommendations\": " ++ toString n ++
    ", \"survey_id\": " ++ toString sid ++
    ", \"timestamp\": " ++ jsonStr ts ++ "\x7d"
  | .error m =>
    "\x7b\"type\": \"error\", \"message\": " ++ jsonStr m ++ "\x7d"
  | .endEv => "\x7b\"type\": \"end\"\x7d"

/-- One transport chunk: every event is yielded as
`"data: " + json.dumps(event) + "\n\n"` in both streaming endpoints. -/
def eventChunk (e : Event) : String :=
  "data: " ++ eventJson e ++ "\n\n"

/-- The transport-level view of a streaming response: content type, extra
headers, and the body chunks in order. -/
structure HttpResponse where
  mimetype : String
  extraHeaders : List (String × String)
  chunks : List String
  deriving DecidableEq

/-- Embeds `process_survey_stream_endpoint` (lines 746-890) for an integer
survey id: `Response(generate(), mimetype='text/plain')`. -/
def process_survey_stream_endpoint (survey_id : Int) (fetch : FetchOutcome)
    (calls : String → Nat → CallOutcome) (parse : String → Option GptRec) (env : Env) :
    HttpResponse :=
  { mimetype := "text/plain",
    extraHeaders := [],
    chunks := (process_survey_stream_generate survey_id fetch calls parse env).map eventChunk }

/-- Embeds `process_survey_sse_endpoint` (lines 892-1041) for an integer
survey id: `text/event-stream` with the no-cache, keep-alive and CORS
headers. -/
def process_survey_sse_endpoint (survey_id : Int) (fetch : FetchOutcome)
    (calls : String → Nat → CallOutcome) (parse : String → Option GptRec) (env : Env) :
    HttpResponse :=
  { mimetype := "text/event-stream",
    extraHeaders := [("Cache-Control", "no-cache"), ("Connection", "keep-alive"),
      ("Access-Control-Allow-Origin", "*"), ("Access-Control-Allow-Headers", "Cache-Control")],
    chunks := (process_survey_sse_generate survey_id fetch calls parse env).map eventChunk }

-- ## Spec-side event shape (used only to state claims)

/-- Modelled from the spec: the event segment prescribed for the
qualifying tasks (claim C1) - for each qualifying task in order, one
progress event (current counting up from `k+1`, total fixed) immediately
followed by a recommendation event exactly when generation succeeds.  This
definition follows the spec text and is compared with the loop the code
runs. -/
def spec_task_events (gpt : String → Option GptRec) (env : Env)
    (category_scores : CategoryScores) (survey_id : Int) (total : Nat) :
    List SurveyTask → Nat → List Event
  | [], _ => []
  | t :: ts, k =>
    Event.progress (k + 1) total (progressPercentageTenths (k + 1) total) ::
    ((match generate_subcategory_recommendation gpt env t category_scores survey_id with
      | some r => [Event.recommendation r]
      | none => []) ++
     spec_task_events gpt env category_scores survey_id total ts (k + 1))

/-- The per-control recommendations a request ends up with, phrased as the
spec phrases it: the qualifying tasks in order, each contributing its
successful generation result. -/
def per_control_recs (gpt : String → Option GptRec) (env : Env)
    (category_scores : CategoryScores) (survey_id : Int) (tasks : List SurveyTask) :
    List Recommendation :=
  (tasks.filter task_qualifies).filterMap
    (fun t => generate_subcategory_recommendation gpt env t category_scores survey_id)

/-- The category scores a request works with, as produced by the fetch
handling. -/
def fetched_scores (mS : Nat) (mB : Bool) (mP : MetaParse) : CategoryScores :=
  (handle_meta mS mB mP).2

/-- The task list a request works with, as produced by the fetch handling. -/
def fetched_tasks (tS : Nat) (tB : Bool) (tP : TaskParse) : List SurveyTask :=
  (handle_tasks tS tB tP).2

/-- The user-context payload a streaming request emits. -/
def stream_user_context (survey_id : Int) (env : Env) (cs : CategoryScores) : UserContext :=
  { survey_id := survey_id, assessment_date := env.date,
    current_maturity_scores := cs,
    overall_maturity_level := calculate_overall_maturity cs }

/-- The events of the positive-assessment phase when it runs: the status
announcement, then a recommendation event exactly when the synthesis
succeeded. -/
def positive_segment (gpt : String → Option GptRec) (env : Env)
    (cs : CategoryScores) (survey_id : Int) : List Event :=
  Event.status "Generating positive assessment via LLM..." none ::
  (match generate_positive_assessment_recommendation gpt env cs survey_id with
   | some p => [Event.recommendation p]
   | none => [])

/-- The recommendations list a request finally reports: the per-control
ones, or on an empty per-control result whatever the positive-assessment
synthesis produced. -/
def final_recommendations (gpt : String → Option GptRec) (env : Env)
    (cs : CategoryScores) (survey_id : Int) (tasks : List SurveyTask) :
    List Recommendation :=
  let recs := per_control_recs gpt env cs survey_id tasks
  if recs.isEmpty then
    match generate_positive_assessment_recommendation gpt env cs survey_id with
    | some p => [p]
    | none => recs
  else recs

-- ## Concrete sample data for witnesses and counterexamples

/-- A well-formed model output used by the success oracle. -/
def okGpt : GptRec :=
  { subcategory := "GV.OC-01", title := "Organizational Mission",
    description := "Mission context informs cybersecurity risk management.",
    priority := "Medium",
    recommendation := "Formalize the governance program.",
    rationale := "Strong governance aligns security with business goals.",
    supporting_resources := ["NIST CSF 2.0"],
    remediation_steps := ["Document policies", "Assign owners"],
    tools := ["GRC platform"], references := ["NIST CSF"],
    effort_level := "Medium", impact_score := 7,
    reference_note := "Curated knowledge base." }

/-- A model oracle whose calls always return content that parses. -/
def okCalls : String → Nat → CallOutcome := fun _ _ => CallOutcome.content "json object"

def okParse : String → Option GptRec := fun _ => some okGpt

/-- A model oracle whose calls always return non-JSON content. -/
def failCalls : String → Nat → CallOutcome := fun _ _ => CallOutcome.content "not json"

def failParse : String → Option GptRec := fun _ => none

def sampleEnv : Env :=
  { date := "2025-06-01", now := "2025-06-01T12:00:00",
    uuid := "00000000-0000-4000-8000-000000000000" }

def taskLow : SurveyTask :=
  { id := 1, name := "GV.OC-01: Organizational Mission", score := some 1,
    kind := "govern category", subSystem := "GV.OC",
    additionalContext := "Policies are informal.", informativeReferences := "NIST CSF 2.0" }

def taskLow2 : SurveyTask :=
  { id := 2, name := "PR.AA-01: Identity Management", score := some 2,
    kind := "protect category", subSystem := "PR.AA",
    additionalContext := "Some controls exist.", informativeReferences := "NIST CSF 2.0" }

def taskHigh : SurveyTask :=
  { id := 3, name := "DE.AE-02: Event Analysis", score := some 4,
    kind := "detect category", subSystem := "DE.AE",
    additionalContext := "", informativeReferences := "" }

def taskNoScore : SurveyTask :=
  { id := 4, name := "RS.MA-01: Incident Management", score := none,
    kind := "respond category", subSystem := "RS.MA",
    additionalContext := "", informativeReferences := "" }

/-- A clean fetch with two qualifying tasks (claim C1 example). -/
def exFetch : FetchOutcome :=
  .ok 200 false (.parsed [taskLow, taskLow2]) 200 false (.parsed (.mapping [("govern", 40)]))

/-- A fetch whose task sub-fetch failed (status 404, blank body): one
data-quality warning, no tasks. -/
def cexFetch : FetchOutcome :=
  .ok 404 true (.parsed []) 200 false (.parsed (.mapping []))

/-- A fetch returning a single well-scoring task (claim C2 failing input). -/
def c2fetch : FetchOutcome :=
  .ok 200 false (.parsed [taskHigh]) 200 false (.parsed (.mapping [("govern", 80)]))

/-- A fetch whose metadata scores field is a JSON-encoded mapping string. -/
def c6fetchGood : FetchOutcome :=
  .ok 200 false (.parsed []) 200 false (.parsed (.strVal "\x7b\"govern\": 40\x7d"))

/-- A fetch whose metadata scores field is a non-JSON string. -/
def c6fetchBad : FetchOutcome :=
  .ok 200 false (.parsed []) 200 false (.parsed (.strVal "not json"))

/-- The recommendation the success oracle produces for `taskLow`. -/
def taskLowRec : Recommendation :=
  { base := okGpt,
    meta := RecMeta.control taskLow.id taskLow.name "govern" 1
      (get_score_response_text 1) (determine_priority 1) sampleEnv.uuid sampleEnv.now }

/-- A per-attempt oracle that always returns non-JSON content. -/
def badCall : Nat → CallOutcome := fun _ => CallOutcome.content "not json"

/-- A per-attempt oracle that always raises. -/
def exnCall : Nat → CallOutcome := fun _ => CallOutcome.exn "boom"

-- ## Helper lemmas

/-- The SSE generator body is a line-for-line duplicate of the plain
streaming generator body; both compute the same event list. -/
theorem sse_generate_eq_stream (survey_id : Int) (fetch : FetchOutcome)
    (calls : String → Nat → CallOutcome) (parse : String → Option GptRec) (env : Env) :
    process_survey_sse_generate survey_id fetch calls parse env
      = process_survey_stream_generate survey_id fetch calls parse env := by
  cases fetch <;> rfl

/-- The streaming per-task loop, characterized: its events are the
spec-shaped segment over the qualifying tasks, and its accumulated
recommendations are the accumulator followed by the per-control results. -/
theorem stream_task_loop_spec (gpt : String → Option GptRec) (env : Env)
    (cs : CategoryScores) (sid : Int) (total : Nat) (ts : List SurveyTask) :
    ∀ (k : Nat) (acc : List Recommendation),
      stream_task_loop gpt env cs sid total ts k acc
        = (spec_task_events gpt env cs sid total (ts.filter task_qualifies) k,
           acc ++ per_control_recs gpt env cs sid ts) := by
  induction ts with
  | nil => intro k acc; simp [stream_task_loop, spec_task_events, per_control_recs]
  | cons t ts ih =>
    intro k acc
    cases hsc : t.score with
    | none =>
      have hq : task_qualifies t = false := by simp [task_qualifies, hsc]
      simp [stream_task_loop, hsc, hq, ih, per_control_recs]
    | some s =>
      by_cases hle : s ≤ 2
      · have hq : task_qualifies t = true := by simp [task_qualifies, hsc, hle]
        cases hg : generate_subcategory_recommendation gpt env t cs sid with
        | some r =>
          simp [stream_task_loop, hsc, hle, hq, hg, ih, spec_task_events, per_control_recs]
        | none =>
          simp [stream_task_loop, hsc, hle, hq, hg, ih, spec_task_events, per_control_recs]
      · have hq : task_qualifies t = false := by simp [task_qualifies, hsc, hle]
        simp [stream_task_loop, hsc, hle, hq, ih, per_control_recs]

/-- The blocking per-control loop is the filterMap of its per-task step. -/
theorem per_control_loop_eq (gpt : String → Option GptRec) (env : Env)
    (cs : CategoryScores) (sid : Int) (ts : List SurveyTask) :
    per_control_loop gpt env cs sid ts = ts.filterMap (per_control_step gpt env cs sid) := by
  induction ts with
  | nil => simp [per_control_loop]
  | cons t ts ih =>
    cases hsc : t.score with
    | none => simp [per_control_loop, per_control_step, hsc, ih]
    | some s =>
      by_cases hle : s ≤ 2
      · cases hg : generate_subcategory_recommendation gpt env t cs sid <;>
          simp [per_control_loop, per_control_step, hsc, hle, hg, ih]
      · simp [per_control_loop, per_control_step, hsc, hle, ih]

/-- Both recommendation-list phrasings agree: filtering then generating is
the same as the guarded per-task step. -/
theorem per_control_recs_eq (gpt : String → Option GptRec) (env : Env)
    (cs : CategoryScores) (sid : Int) (ts : List SurveyTask) :
    per_control_recs gpt env cs sid ts = ts.filterMap (per_control_step gpt env cs sid) := by
  induction ts with
  | nil => simp [per_control_recs]
  | cons t ts ih =>
    cases hsc : t.score with
    | none =>
      have hq : task_qualifies t = false := by simp [task_qualifies, hsc]
      simp [per_control_recs, per_control_step, hsc, hq] at ih ⊢
      exact ih
    | some s =>
      by_cases hle : s ≤ 2
      · have hq : task_qualifies t = true := by simp [task_qualifies, hsc, hle]
        cases hg : generate_subcategory_recommendation gpt env t cs sid with
        | some r =>
          simp [per_control_recs, per_control_step, hsc, hle, hq, hg] at ih ⊢
          exact ih
        | none =>
          simp [per_control_recs, per_control_step, hsc, hle, hq, hg] at ih ⊢
          exact ih
      · have hq : task_qualifies t = false := by simp [task_qualifies, hsc, hle]
        simp [per_control_recs, per_control_step, hsc, hle, hq] at ih ⊢
        exact ih

/-- Every event produced by the meta handling is a warning. -/
theorem handle_meta_warnings (s : Nat) (b : Bool) (p : MetaParse) :
    ∀ e ∈ (handle_meta s b p).1, ∃ m, e = Event.warning m := by
  intro e he
  unfold handle_meta at he
  split at he
  · cases p with
    | parseError m => simp at he; exact ⟨_, he⟩
    | parsed sf =>
      cases sf with
      | absent => simp at he
      | mapping m => simp at he
      | strVal s2 =>
        cases hp : pyJsonParseFlatObj s2 with
        | some m => simp [hp] at he
        | none => simp [hp] at he; exact ⟨_, he⟩
  · simp at he; exact ⟨_, he⟩

/-- Every event produced by the task handling is a warning. -/
theorem handle_tasks_warnings (s : Nat) (b : Bool) (p : TaskParse) :
    ∀ e ∈ (handle_tasks s b p).1, ∃ m, e = Event.warning m := by
  intro e he
  unfold handle_tasks at he
  split at he
  · cases p with
    | parseError m => simp at he; exact ⟨_, he⟩
    | parsed ts => simp at he
  · simp at he; exact ⟨_, he⟩

/-- Bounds on progress events inside the spec-shaped task segment. -/
theorem spec_task_events_progress (gpt : String → Option GptRec) (env : Env)
    (cs : CategoryScores) (sid : Int) (total : Nat) (qts : List SurveyTask) :
    ∀ (k : Nat) (c tot : Nat) (pt : Int),
      Event.progress c tot pt ∈ spec_task_events gpt env cs sid total qts k →
      tot = total ∧ k < c ∧ c ≤ k + qts.length := by
  induction qts with
  | nil => intro k c tot pt h; simp [spec_task_events] at h
  | cons t ts ih =>
    intro k c tot pt h
    cases hg : generate_subcategory_recommendation gpt env t cs sid with
    | some r =>
      simp [spec_task_events, hg] at h
      rcases h with ⟨hc, ht, _⟩ | h
      · subst hc; subst ht
        exact ⟨rfl, by omega, by simp only [List.length_cons]; omega⟩
      · obtain ⟨h1, h2, h3⟩ := ih (k + 1) c tot pt h
        exact ⟨h1, by omega, by simp only [List.length_cons]; omega⟩
    | none =>
      simp [spec_task_events, hg] at h
      rcases h with ⟨hc, ht, _⟩ | h
      · subst hc; subst ht
        exact ⟨rfl, by omega, by simp only [List.length_cons]; omega⟩
      · obtain ⟨h1, h2, h3⟩ := ih (k + 1) c tot pt h
        exact ⟨h1, by omega, by simp only [List.length_cons]; omega⟩

/-- Decomposition of the streaming generator on a successful fetch: the
fixed status prefix, the fetch warnings, the user context, the
processing-count status, the spec-shaped per-task segment, the completion
status, the positive-assessment segment when the per-control result is
empty, the summary, and the end marker. -/
theorem stream_generate_ok (sid : Int) (tS mS : Nat) (tB mB : Bool) (tP : TaskParse)
    (mP : MetaParse) (calls : String → Nat → CallOutcome) (parse : String → Option GptRec)
    (env : Env) :
    process_survey_stream_generate sid (.ok tS tB tP mS mB mP) calls parse env =
      [Event.status "Starting survey processing..." (some sid),
       Event.status "Fetching survey data..." none,
       Event.status ("API Status - Task: " ++ toString tS ++ ", Meta: " ++ toString mS) none]
      ++ ((handle_meta mS mB mP).1 ++ (handle_tasks tS tB tP).1)
      ++ [Event.user_context (stream_user_context sid env (fetched_scores mS mB mP)),
          Event.status ("Processing " ++
            toString ((fetched_tasks tS tB tP).filter task_qualifies).length ++ " tasks...") none]
      ++ spec_task_events (gptFor calls parse) env (fetched_scores mS mB mP) sid
           ((fetched_tasks tS tB tP).filter task_qualifies).length
           ((fetched_tasks tS tB tP).filter task_qualifies) 0
      ++ [Event.status "Processing complete!" none]
      ++ (if (per_control_recs (gptFor calls parse) env (fetched_scores mS mB mP) sid
                (fetched_tasks tS tB tP)).isEmpty then
            positive_segment (gptFor calls parse) env (fetched_scores mS mB mP) sid
          else [])
      ++ [Event.summary (final_recommendations (gptFor calls parse) env
            (fetched_scores mS mB mP) sid (fetched_tasks tS tB tP)).length sid env.now,
          Event.endEv] := by
  by_cases h : (per_control_recs (gptFor calls parse) env (handle_meta mS mB mP).2 sid
      (handle_tasks tS tB tP).2).isEmpty
  · cases hg : generate_positive_assessment_recommendation (gptFor calls parse) env
        (handle_meta mS mB mP).2 sid with
    | some p =>
      simp [process_survey_stream_generate, stream_task_loop_spec, h, hg,
        positive_segment, final_recommendations, stream_user_context,
        fetched_scores, fetched_tasks]
    | none =>
      simp [process_survey_stream_generate, stream_task_loop_spec, h, hg,
        positive_segment, final_recommendations, stream_user_context,
        fetched_scores, fetched_tasks]
  · simp [process_survey_stream_generate, stream_task_loop_spec, h,
      final_recommendations, stream_user_context, fetched_scores, fetched_tasks]

/-- Shape of a successful per-control generation: the task score was
present, the category is the first word of `kind`, and the attached
metadata carries the task id, name, score, score text and the recomputed
priority. -/
theorem generate_subcategory_shape (gpt : String → Option GptRec) (env : Env)
    (t : SurveyTask) (cs : CategoryScores) (sid : Int) (r : Recommendation)
    (h : generate_subcategory_recommendation gpt env t cs sid = some r) :
    ∃ s cat g, t.score = some s ∧
      r = { base := g,
            meta := RecMeta.control t.id t.name cat s (get_score_response_text s)
              (determine_priority s) env.uuid env.now } := by
  cases hsc : t.score with
  | none => simp [generate_subcategory_recommendation, hsc] at h
  | some s =>
    cases hw : pyWords t.kind with
    | nil => simp [generate_subcategory_recommendation, hsc, hw] at h
    | cons c rest =>
      cases hg : gpt (prepare_subcategory_prompt t.name s c t.subSystem
          t.additionalContext t.informativeReferences cs (get_score_response_text s)) with
      | none => simp [generate_subcategory_recommendation, hsc, hw, hg] at h
      | some g =>
        simp [generate_subcategory_recommendation, hsc, hw, hg] at h
        exact ⟨s, c, g, rfl, h.symm⟩

/-- A successful per-control step tags the recommendation with the id of
the task it came from. -/
theorem per_control_step_nistId (gpt : String → Option GptRec) (env : Env)
    (cs : CategoryScores) (sid : Int) (t : SurveyTask) (r : Recommendation)
    (h : per_control_step gpt env cs sid t = some r) : r.nistId = some t.id := by
  cases hsc : t.score with
  | none => simp [per_control_step, hsc] at h
  | some s =>
    by_cases hle : s ≤ 2
    · have h' : generate_subcategory_recommendation gpt env t cs sid = some r := by
        simpa [per_control_step, hsc, hle] using h
      obtain ⟨s', cat, g, _, rfl⟩ := generate_subcategory_shape gpt env t cs sid r h'
      rfl
    · simp [per_control_step, hsc, hle] at h

/-- With distinct task ids, every id appears at most once among the
per-control results. -/
theorem filterMap_step_count (gpt : String → Option GptRec) (env : Env)
    (cs : CategoryScores) (sid : Int) :
    ∀ (tasks : List SurveyTask), (tasks.map SurveyTask.id).Nodup →
      ∀ i : Int,
        ((tasks.filterMap (per_control_step gpt env cs sid)).filter
          (fun r => decide (r.nistId = some i))).length ≤ 1 := by
  intro tasks
  induction tasks with
  | nil => intro _ i; simp
  | cons t ts ih =>
    intro hnd i
    rw [List.map_cons, List.nodup_cons] at hnd
    obtain ⟨hni, hnd'⟩ := hnd
    rw [List.filterMap_cons]
    cases hstep : per_control_step gpt env cs sid t with
    | none => exact ih hnd' i
    | some r =>
      rw [List.filter_cons]
      by_cases hr : r.nistId = some i
      · have hz : ((ts.filterMap (per_control_step gpt env cs sid)).filter
            (fun r => decide (r.nistId = some i))) = [] := by
          rw [List.filter_eq_nil_iff]
          intro r' hr'
          obtain ⟨t', ht', hstep'⟩ := List.mem_filterMap.mp hr'
          have hid' := per_control_step_nistId gpt env cs sid t' r' hstep'
          have hid := per_control_step_nistId gpt env cs sid t r hstep
          rw [hr] at hid
          have : t'.id ≠ i := by
            intro hcontra
            exact hni (by
              rw [← hcontra] at hid
              injection hid with hv
              rw [hv.symm]
              exact List.mem_map_of_mem SurveyTask.id ht')
          simp [hid', this]
        simp [hr, hz]
      · simp [hr]
        exact ih hnd' i

/-- Exhausted attempts on persistent exceptions: the loop sleeps `delay`
once per attempt that is not the last one. -/
theorem gptAttempts_exn (call : Nat → CallOutcome) (parse : String → Option GptRec)
    (r d : Nat) (m : String) (hc : ∀ n, call n = CallOutcome.exn m) :
    ∀ (f a : Nat), gptAttempts call parse r d a f = (none, d * min f (r - 1 - a)) := by
  intro f
  induction f with
  | zero => intro a; simp [gptAttempts]
  | succ f ih =>
    intro a
    by_cases hlt : a < r - 1
    · have hmin : min (f + 1) (r - 1 - a) = min f (r - 1 - (a + 1)) + 1 := by
        rw [Nat.min_def, Nat.min_def]
        split <;> split <;> omega
      simp [gptAttempts, hc a, hlt, ih (a + 1), hmin]
      ring
    · have h0 : r - 1 - a = 0 := by omega
      have h1 : r - 1 - (a + 1) = 0 := by omega
      simp [gptAttempts, hc a, hlt, ih (a + 1), h0, h1]

/-- Exhausted attempts on persistently unparseable non-empty content: the
`continue` path never sleeps. -/
theorem gptAttempts_badjson (call : Nat → CallOutcome) (parse : String → Option GptRec)
    (hc : ∀ n, ∃ s, call n = CallOutcome.content s ∧ pyBlank s = false ∧ parse s = none)
    (r d : Nat) : ∀ (f a : Nat), gptAttempts call parse r d a f = (none, 0) := by
  intro f
  induction f with
  | zero => intro a; simp [gptAttempts]
  | succ f ih =>
    intro a
    obtain ⟨s, hcall, hne, hp⟩ := hc a
    simp [gptAttempts, hcall, hne, hp, ih (a + 1)]

-- ## Claim theorems

/-- Claim C8: for every integer score, `determine_priority` returns
Critical for scores 0 and 1, High for score 2, Medium for score 3, and Low
for every score greater than or equal to 4. -/
theorem C8_determine_priority_bands (s : Int) :
    (s = 0 → determine_priority s = "Critical") ∧
    (s = 1 → determine_priority s = "Critical") ∧
    (s = 2 → determine_priority s = "High") ∧
    (s = 3 → determine_priority s = "Medium") ∧
    (4 ≤ s → determine_priority s = "Low") := by
  refine ⟨fun h => by subst h; rfl, fun h => by subst h; rfl, fun h => by subst h; rfl,
    fun h => by subst h; rfl, fun h => ?_⟩
  unfold determine_priority
  have h1 : ¬ s ≤ 1 := by omega
  have h2 : ¬ s = 2 := by omega
  have h3 : ¬ s = 3 := by omega
  simp [h1, h2, h3]

/-- Witness for C8: the bands evaluated at 0, 2, 3 and 4. -/
theorem C8_determine_priority_bands_witness :
    determine_priority 0 = "Critical" ∧ determine_priority 2 = "High" ∧
    determine_priority 3 = "Medium" ∧ determine_priority 4 = "Low" :=
  ⟨(C8_determine_priority_bands 0).1 rfl,
   (C8_determine_priority_bands 2).2.2.1 rfl,
   (C8_determine_priority_bands 3).2.2.2.1 rfl,
   (C8_determine_priority_bands 4).2.2.2.2 (by norm_num)⟩

/-- Claim C9: `calculate_overall_maturity` returns "Unknown" on the empty
mapping; otherwise it labels the average of the percentage values with the
76/51/26 thresholds; in particular a mapping averaging exactly 50 gets
"Basic". -/
theorem C9_overall_maturity :
    calculate_overall_maturity [] = "Unknown" ∧
    (∀ cs : CategoryScores, cs ≠ [] →
      calculate_overall_maturity cs =
        (if 76 ≤ (((cs.map Prod.snd).sum : Int) : ℚ) / (cs.length : ℚ) then "Advanced"
         else if 51 ≤ (((cs.map Prod.snd).sum : Int) : ℚ) / (cs.length : ℚ) then "Intermediate"
         else if 26 ≤ (((cs.map Prod.snd).sum : Int) : ℚ) / (cs.length : ℚ) then "Basic"
         else "Initial")) ∧
    calculate_overall_maturity [("a", 90), ("b", 10)] = "Basic" := by
  refine ⟨rfl, fun cs h => ?_, by norm_num [calculate_overall_maturity]⟩
  cases cs with
  | nil => exact absurd rfl h
  | cons a l => simp [calculate_overall_maturity]

/-- Witness for C9: a nonempty mapping with average 35 labels "Basic". -/
theorem C9_overall_maturity_witness :
    calculate_overall_maturity [("x", 30), ("y", 40)] = "Basic" := by
  have h := C9_overall_maturity.2.1 [("x", 30), ("y", 40)] (by simp)
  rw [h]
  norm_num

/-- Claim C7: every recommendation produced by the per-control path has its
final priority equal to `determine_priority` of its current score, for
every task and every model output - the model-returned priority is
overwritten by the attached metadata. -/
theorem C7_priority_overwritten (gpt : String → Option GptRec) (env : Env) (t : SurveyTask)
    (cs : CategoryScores) (sid : Int) (r : Recommendation)
    (h : generate_subcategory_recommendation gpt env t cs sid = some r) :
    ∃ s, t.score = some s ∧ r.currentScore = some s ∧
      r.priorityValue = determine_priority s := by
  obtain ⟨s, cat, g, hsc, rfl⟩ := generate_subcategory_shape gpt env t cs sid r h
  exact ⟨s, hsc, rfl, rfl⟩

/-- Witness for C7: a task scored 1 with a model output whose priority
field says "Medium" still comes out with priority Critical. -/
theorem C7_priority_overwritten_witness :
    generate_subcategory_recommendation (gptFor okCalls okParse) sampleEnv taskLow
        [("govern", 40)] 5 = some taskLowRec ∧
    taskLowRec.currentScore = some 1 ∧
    taskLowRec.priorityValue = determine_priority 1 := by
  have h : generate_subcategory_recommendation (gptFor okCalls okParse) sampleEnv taskLow
      [("govern", 40)] 5 = some taskLowRec := rfl
  obtain ⟨s, hs, hcs, hp⟩ := C7_priority_overwritten (gptFor okCalls okParse) sampleEnv
    taskLow [("govern", 40)] 5 taskLowRec h
  have hs1 : s = 1 := by
    simp [taskLow] at hs
    exact hs.symm
  subst hs1
  exact ⟨h, hcs, hp⟩

/-- Claim C5: for the same survey input and the same upstream and model
responses (and the same drawn timestamps and ids), the two streaming
endpoints emit byte-identical chunk sequences and differ only in content
type and response headers. -/
theorem C5_endpoints_equivalent (sid : Int) (fetch : FetchOutcome)
    (calls : String → Nat → CallOutcome) (parse : String → Option GptRec) (env : Env) :
    (process_survey_stream_endpoint sid fetch calls parse env).chunks
      = (process_survey_sse_endpoint sid fetch calls parse env).chunks ∧
    (process_survey_stream_endpoint sid fetch calls parse env).mimetype = "text/plain" ∧
    (process_survey_sse_endpoint sid fetch calls parse env).mimetype = "text/event-stream" ∧
    (process_survey_stream_endpoint sid fetch calls parse env).extraHeaders = [] ∧
    (process_survey_sse_endpoint sid fetch calls parse env).extraHeaders
      = [("Cache-Control", "no-cache"), ("Connection", "keep-alive"),
         ("Access-Control-Allow-Origin", "*"), ("Access-Control-Allow-Headers", "Cache-Control")] := by
  refine ⟨?_, rfl, rfl, rfl, rfl⟩
  simp [process_survey_stream_endpoint, process_survey_sse_endpoint, sse_generate_eq_stream]

/-- Counterexample for C3 as stated: with every attempt returning non-JSON
content, the call retries through all 3 attempts but sleeps for 0 time
units in total, not the 10-per-gap (20 in total) the claimed fixed
inter-attempt delay would give. -/
theorem C3_retry_delay_counterexample :
    generate_gpt_recommendation badCall failParse 3 10 = (none, 0) ∧
    (generate_gpt_recommendation badCall failParse 3 10).2 ≠ 10 * (3 - 1) := by
  exact ⟨by decide, by decide⟩

/-- Claim C3 (amended): empty model output returns null immediately with no
retry and no delay; persistent non-JSON output is retried through all
`retries` attempts and returns null with no inter-attempt delay (the
`continue` path does not sleep); persistent transport/provider failures
also consume the attempt budget and return null, sleeping `delay` after
every attempt but the last; with `retries = 1` a single failure of either
kind produces null with no retry and no sleep. -/
theorem C3_gpt_retry_behavior (parse : String → Option GptRec) (d : Nat) :
    (∀ (call : Nat → CallOutcome) (r : Nat) (s : String), 0 < r →
        call 0 = CallOutcome.content s → pyBlank s = true →
        generate_gpt_recommendation call parse r d = (none, 0)) ∧
    (∀ (call : Nat → CallOutcome) (r : Nat),
        (∀ n, ∃ s, call n = CallOutcome.content s ∧ pyBlank s = false ∧ parse s = none) →
        generate_gpt_recommendation call parse r d = (none, 0)) ∧
    (∀ (call : Nat → CallOutcome) (r : Nat) (m : String),
        (∀ n, call n = CallOutcome.exn m) →
        generate_gpt_recommendation call parse r d = (none, (r - 1) * d)) ∧
    (∀ (call : Nat → CallOutcome),
        ((∃ m, call 0 = CallOutcome.exn m) ∨
         (∃ s, call 0 = CallOutcome.content s ∧ parse s = none)) →
        generate_gpt_recommendation call parse 1 d = (none, 0)) := by
  refine ⟨?_, ?_, ?_, ?_⟩
  · intro call r s hr hcall hblank
    cases r with
    | zero => omega
    | succ r => simp [generate_gpt_recommendation, gptAttempts, hcall, hblank]
  · intro call r hc
    exact gptAttempts_badjson call parse hc r d r 0
  · intro call r m hc
    have h := gptAttempts_exn call parse r d m hc r 0
    rw [generate_gpt_recommendation, h]
    have hmin : min r (r - 1 - 0) = r - 1 := by omega
    rw [hmin, Nat.mul_comm]
  · intro call h
    rcases h with ⟨m, hm⟩ | ⟨s, hs, hp⟩
    · simp [generate_gpt_recommendation, gptAttempts, hm]
    · by_cases hb : pyBlank s
      · simp [generate_gpt_recommendation, gptAttempts, hs, hb]
      · simp [generate_gpt_recommendation, gptAttempts, hs, hb, hp]

/-- Witness for C3: three persistently failing transport attempts with
delay 10 return null after sleeping 20 units. -/
theorem C3_gpt_retry_behavior_witness :
    generate_gpt_recommendation exnCall failParse 3 10 = (none, 20) := by
  have h := (C3_gpt_retry_behavior failParse 10).2.2.1 exnCall 3 "boom" (fun n => rfl)
  simpa using h

/-- Claim C2 (the code bug): on a survey whose only task scores 4 and with
a model that persistently returns non-JSON, the per-control path yields
nothing, `generate_positive_assessment_recommendation` returns null (its
canned fallback lives in an except-branch that a null model result never
reaches), and the pipeline returns an empty recommendations list - the
claimed fallback never fires.  With a working model the same survey yields
exactly one positive-assessment recommendation, so the two paths are
mutually exclusive as claimed. -/
theorem C2_positive_fallback_dead :
    generate_positive_assessment_recommendation (gptFor failCalls failParse) sampleEnv
      [("govern", 80)] 42 = none ∧
    process_survey 42 c2fetch failCalls failParse sampleEnv =
      .ok { survey_id := 42, assessment_date := sampleEnv.date,
            current_maturity_scores := [("govern", 80)],
            overall_maturity_level := calculate_overall_maturity [("govern", 80)] }
        [] ∧
    process_survey 42 c2fetch okCalls okParse sampleEnv =
      .ok { survey_id := 42, assessment_date := sampleEnv.date,
            current_maturity_scores := [("govern", 80)],
            overall_maturity_level := calculate_overall_maturity [("govern", 80)] }
        [{ base := okGpt,
           meta := RecMeta.positive "positive_evaluation" sampleEnv.uuid sampleEnv.now }] := by
  exact ⟨rfl, rfl, rfl⟩

/-- Claim C6: a string-typed metadata scores field goes through a second
JSON parse - the JSON-object string parses into the mapping, a non-JSON
string is replaced by the empty mapping with a warning surfaced, and the
request as a whole still succeeds (no error event in the stream, a normal
result from the blocking endpoint). -/
theorem C6_scores_string_second_parse :
    pyJsonParseFlatObj "\x7b\"govern\": 40\x7d" = some [("govern", 40)] ∧
    pyJsonParseFlatObj "not json" = none ∧
    handle_meta 200 false (.parsed (.strVal "\x7b\"govern\": 40\x7d"))
      = ([], [("govern", 40)]) ∧
    handle_meta 200 false (.parsed (.strVal "not json"))
      = ([Event.warning "Could not parse scores data"], []) ∧
    Event.warning "Could not parse scores data" ∈
      process_survey_stream_generate 5 c6fetchBad failCalls failParse sampleEnv ∧
    (process_survey_stream_generate 5 c6fetchBad failCalls failParse sampleEnv).all
      (fun e => !e.isError) = true ∧
    process_survey 5 c6fetchBad failCalls failParse sampleEnv =
      .ok { survey_id := 5, assessment_date := sampleEnv.date,
            current_maturity_scores := [],
            overall_maturity_level := "Unknown" } [] ∧
    process_survey 5 c6fetchGood failCalls failParse sampleEnv =
      .ok { survey_id := 5, assessment_date := sampleEnv.date,
            current_maturity_scores := [("govern", 40)],
            overall_maturity_level := calculate_overall_maturity [("govern", 40)] } [] := by
  exact ⟨by decide, by decide, by decide, by decide, by decide, by decide, rfl, rfl⟩

/-- Claim C4: in the per-control path of both the blocking and the
streaming pipelines, a task with an absent or null score, or a score of 3
or more, never produces a recommendation and is skipped entirely, while
each task contributes at most one entry to the per-control output (each
distinct task id appears at most once). -/
theorem C4_score_filtering (tasks : List SurveyTask) (cs : CategoryScores) (sid : Int)
    (calls : String → Nat → CallOutcome) (parse : String → Option GptRec) (env : Env)
    (hids : (tasks.map SurveyTask.id).Nodup) :
    per_control_loop (gptFor calls parse) env cs sid tasks
      = tasks.filterMap (per_control_step (gptFor calls parse) env cs sid) ∧
    (∀ t : SurveyTask, (t.score = none ∨ ∃ s, t.score = some s ∧ 3 ≤ s) →
      per_control_step (gptFor calls parse) env cs sid t = none) ∧
    (∀ i : Int,
      ((tasks.filterMap (per_control_step (gptFor calls parse) env cs sid)).filter
        (fun r => decide (r.nistId = some i))).length ≤ 1) ∧
    (∀ (total k : Nat) (acc : List Recommendation) (t : SurveyTask) (ts : List SurveyTask),
      task_qualifies t = false →
      stream_task_loop (gptFor calls parse) env cs sid total (t :: ts) k acc
        = stream_task_loop (gptFor calls parse) env cs sid total ts k acc) := by
  refine ⟨per_control_loop_eq _ _ _ _ _, ?_,
    filterMap_step_count _ _ _ _ tasks hids, ?_⟩
  · intro t h
    rcases h with h | ⟨s, hs, h3⟩
    · simp [per_control_step, h]
    · have hgt : ¬ s ≤ 2 := by omega
      simp [per_control_step, hs, hgt]
  · intro total k acc t ts hq
    cases hsc : t.score with
    | none => simp [stream_task_loop, hsc]
    | some s =>
      have hgt : ¬ s ≤ 2 := by
        intro hle
        rw [task_qualifies, hsc] at hq
        simp [hle] at hq
      simp [stream_task_loop, hsc, hgt]

/-- Witness for C4: a survey with a qualifying task, a well-scoring task
and a score-less task; the loop equals the per-task filterMap there. -/
theorem C4_score_filtering_witness :
    per_control_loop (gptFor okCalls okParse) sampleEnv [("govern", 40)] 5
        [taskLow, taskHigh, taskNoScore]
      = [taskLow, taskHigh, taskNoScore].filterMap
          (per_control_step (gptFor okCalls okParse) sampleEnv [("govern", 40)] 5) :=
  (C4_score_filtering [taskLow, taskHigh, taskNoScore] [("govern", 40)] 5 okCalls okParse
    sampleEnv (by decide)).1

/-- Claim C10: in both streaming generators every progress event satisfies
1 ≤ current ≤ total, so the up-front qualifying-task total is at least 1
whenever a progress event fires and the percentage computation never
divides by zero. -/
theorem C10_progress_safe (sid : Int) (fetch : FetchOutcome)
    (calls : String → Nat → CallOutcome) (parse : String → Option GptRec) (env : Env)
    (c tot : Nat) (pt : Int)
    (h : Event.progress c tot pt ∈ process_survey_stream_generate sid fetch calls parse env ∨
         Event.progress c tot pt ∈ process_survey_sse_generate sid fetch calls parse env) :
    1 ≤ c ∧ c ≤ tot ∧ tot ≠ 0 := by
  rw [sse_generate_eq_stream] at h
  replace h := h.elim id id
  cases fetch with
  | requestError m => simp [process_survey_stream_generate] at h
  | ok tS tB tP mS mB mP =>
    rw [stream_generate_ok] at h
    have hspec : Event.progress c tot pt ∈
        spec_task_events (gptFor calls parse) env (fetched_scores mS mB mP) sid
          ((fetched_tasks tS tB tP).filter task_qualifies).length
          ((fetched_tasks tS tB tP).filter task_qualifies) 0 →
        1 ≤ c ∧ c ≤ tot ∧ tot ≠ 0 := by
      intro hm
      obtain ⟨h1, h2, h3⟩ := spec_task_events_progress _ _ _ _ _ _ 0 c tot pt hm
      subst h1
      refine ⟨by omega, by omega, by omega⟩
    have hmw : Event.progress c tot pt ∉ (handle_meta mS mB mP).1 := by
      intro hm
      obtain ⟨m', hm'⟩ := handle_meta_warnings mS mB mP _ hm
      exact absurd hm' (by simp)
    have htw : Event.progress c tot pt ∉ (handle_tasks tS tB tP).1 := by
      intro hm
      obtain ⟨m', hm'⟩ := handle_tasks_warnings tS tB tP _ hm
      exact absurd hm' (by simp)
    by_cases hpos : (per_control_recs (gptFor calls parse) env (fetched_scores mS mB mP) sid
        (fetched_tasks tS tB tP)).isEmpty
    · rw [if_pos hpos] at h
      cases hg : generate_positive_assessment_recommendation (gptFor calls parse) env
          (fetched_scores mS mB mP) sid with
      | some p =>
        simp [positive_segment, hg, hmw, htw] at h
        exact hspec h
      | none =>
        simp [positive_segment, hg, hmw, htw] at h
        exact hspec h
    · rw [if_neg hpos] at h
      simp [hmw, htw] at h
      exact hspec h

/-- Witness for C10: the first progress event of the two-control example
has current 1 and total 2. -/
theorem C10_progress_safe_witness : 1 ≤ 1 ∧ 1 ≤ 2 ∧ 2 ≠ 0 := by
  refine C10_progress_safe 5 exFetch okCalls okParse sampleEnv 1 2
    (progressPercentageTenths 1 2) (Or.inl ?_)
  have hq : (fetched_tasks 200 false (TaskParse.parsed [taskLow, taskLow2])).filter
      task_qualifies = [taskLow, taskLow2] := by decide
  rw [show exFetch = FetchOutcome.ok 200 false (TaskParse.parsed [taskLow, taskLow2]) 200
      false (MetaParse.parsed (ScoresField.mapping [("govern", 40)])) from rfl,
    stream_generate_ok, hq]
  simp [spec_task_events]

/-- Counterexample for C1 as stated: a request with one data-quality
warning and a failed positive-assessment synthesis.  The code emits the
warning after the api-status summary (not before it as claimed) and emits
no recommendation event after the positive-assessment status (the claim
promises one), so the claimed sequence differs from the emitted one. -/
theorem C1_event_order_counterexample :
    (process_survey_stream_generate 7 cexFetch failCalls failParse sampleEnv).map Event.kind
      = [EventKind.status, .status, .status, .warning, .user_context, .status, .status,
         .status, .summary, .ending] ∧
    (process_survey_stream_generate 7 cexFetch failCalls failParse sampleEnv).map Event.kind
      ≠ [EventKind.status, .status, .warning, .status, .user_context, .status, .status,
         .status, .recommendation, .summary, .ending] := by
  exact ⟨by decide, by decide⟩

/-- Claim C1 (amended): on a successful fetch the stream is exactly
status(starting), status(fetching), status(api status summary), the fetch
warnings (zero or more), user_context, status(processing N tasks) with N
the number of tasks with a present score at most 2, then per qualifying
task in order a progress event immediately followed by a recommendation
event when generation succeeded, then status(complete), then - only when
zero per-control recommendations were produced - status(generating
positive assessment) followed by a recommendation event when the synthesis
succeeded, then summary, then end.  The two-qualifying-control example
with successful generation gives the claimed 12-event sequence. -/
theorem C1_stream_event_order (sid : Int) (tS mS : Nat) (tB mB : Bool) (tP : TaskParse)
    (mP : MetaParse) (calls : String → Nat → CallOutcome) (parse : String → Option GptRec)
    (env : Env) :
    process_survey_stream_generate sid (.ok tS tB tP mS mB mP) calls parse env =
      [Event.status "Starting survey processing..." (some sid),
       Event.status "Fetching survey data..." none,
       Event.status ("API Status - Task: " ++ toString tS ++ ", Meta: " ++ toString mS) none]
      ++ ((handle_meta mS mB mP).1 ++ (handle_tasks tS tB tP).1)
      ++ [Event.user_context (stream_user_context sid env (fetched_scores mS mB mP)),
          Event.status ("Processing " ++
            toString ((fetched_tasks tS tB tP).filter task_qualifies).length ++ " tasks...") none]
      ++ spec_task_events (gptFor calls parse) env (fetched_scores mS mB mP) sid
           ((fetched_tasks tS tB tP).filter task_qualifies).length
           ((fetched_tasks tS tB tP).filter task_qualifies) 0
      ++ [Event.status "Processing complete!" none]
      ++ (if (per_control_recs (gptFor calls parse) env (fetched_scores mS mB mP) sid
                (fetched_tasks tS tB tP)).isEmpty then
            positive_segment (gptFor calls parse) env (fetched_scores mS mB mP) sid
          else [])
      ++ [Event.summary (final_recommendations (gptFor calls parse) env
            (fetched_scores mS mB mP) sid (fetched_tasks tS tB tP)).length sid env.now,
          Event.endEv] ∧
    ((handle_meta mS mB mP).1 ++ (handle_tasks tS tB tP).1).all
      (fun e => decide (e.kind = EventKind.warning)) = true ∧
    (process_survey_stream_generate 5 exFetch okCalls okParse sampleEnv).map Event.kind
      = [EventKind.status, .status, .status, .user_context, .status, .progress,
         .recommendation, .progress, .recommendation, .status, .summary, .ending] := by
  refine ⟨stream_generate_ok sid tS mS tB mB tP mP calls parse env, ?_, by decide⟩
  rw [List.all_eq_true]
  intro e he
  rcases List.mem_append.mp he with h | h
  · obtain ⟨m, hm⟩ := handle_meta_warnings mS mB mP e h
    subst hm; rfl
  · obtain ⟨m, hm⟩ := handle_tasks_warnings tS tB tP e h
    subst hm; rfl
